import Mathlib

/-
Verification of the real-time SERP monitoring and alerting engine
(`backend/services/realtime_monitoring_service.py`, plus the WebSocket
`ConnectionManager` of `backend/api/monitoring.py`).

The Python code is shallowly embedded as executable Lean definitions:
  * `datetime` values and Unix timestamps become `Int` seconds;
  * Redis strings/sets/sorted-sets/lists become assoc lists, `Finset String`
    and `List`, with get/set/sadd/zadd/zrange/lpush/ltrim modelled at the
    observable level (a key update shadows the previous binding, since every
    read takes the first matching binding);
  * `numpy` statistics are exact here; the one comparison the code makes,
    `np.std(v) / np.mean(v) > thr`, is expressed by the equivalent squared
    and fraction-cleared integer form (see `volatilityExceeds`).
-/

set_option autoImplicit false

namespace SEOMonitor

/-- `AlertType` enum of `realtime_monitoring_service.py` (lines 18-28). -/
inductive AlertType where
  | RANK_DROP
  | RANK_GAIN
  | SERP_VOLATILITY
  | NEW_COMPETITOR
  | LOST_SNIPPET
  | GAINED_SNIPPET
  | ALGORITHM_UPDATE
  | TECHNICAL_ISSUE
  | BACKLINK_CHANGE
deriving DecidableEq

/-- One competitor entry as built in `_check_keyword_ranking` (lines 139-143). -/
structure Competitor where
  position : Int
  domain : String
  title : String
deriving DecidableEq

/-- `RankingSnapshot` dataclass (lines 30-38).  `position` is an `Int`, never
an option: `_check_keyword_ranking` stores `position or 0` (line 152). -/
structure RankingSnapshot where
  keyword : String
  position : Int
  url : String
  timestamp : Int
  serp_features : List String
  competitors : List Competitor
deriving DecidableEq

/-- The structured `data` payload attached to each alert (the dict literals at
lines 183-187, 198-202, 217, 234, 243, 295).  The volatility payload keeps the
last ten positions; the floating-point volatility value itself (an irrational
number in general) is determined by those inputs and is not re-stored. -/
inductive AlertData where
  | rank (previous_position current_position change : Int)
  | newCompetitors (new_competitors : Finset String)
  | lostFeatures (lost_features : Finset String)
  | gainedFeatures (gained_features : Finset String)
  | volatilitySamples (last_positions : List Int)
deriving DecidableEq

/-- The numeric `change` field of an alert payload, when it has one. -/
def AlertData.change : AlertData → Option Int
  | .rank _ _ c => some c
  | _ => none

/-- `Alert` dataclass (lines 40-48); `severity` is one of the strings
"critical", "warning", "info" exactly as in the source. -/
structure Alert where
  type : AlertType
  severity : String
  keyword : String
  message : String
  data : AlertData
  timestamp : Int
deriving DecidableEq

/-- `self.alert_thresholds` (lines 57-61). -/
structure Thresholds where
  rank_drop : Int
  volatility_threshold : ℚ
  check_interval : Int
deriving DecidableEq

def defaultThresholds : Thresholds :=
  { rank_drop := 3, volatility_threshold := mkRat 3 10, check_interval := 60 }

/-- The JSON object stored under `ranking_history:{project}:{keyword}`
(lines 252-262). -/
structure HistoryEntry where
  position : Int
  url : String
  timestamp : Int
  serp_features : List String
  competitors : List Competitor
deriving DecidableEq

/-- Tail of `_check_keyword_ranking` (lines 150-157): the snapshot records
`position or 0` and `url or ""`; `serp_features` is passed through
`list(set(...))` (here `dedup`; the set's iteration order is unspecified and
irrelevant to every property below) and competitors are cut to the top 5. -/
def mkSnapshot (keyword : String) (url : Option String) (position : Option Int)
    (now : Int) (serp_features : List String) (competitors : List Competitor) :
    RankingSnapshot :=
  { keyword := keyword
    position := position.getD 0
    url := url.getD ""
    timestamp := now
    serp_features := serp_features.dedup
    competitors := competitors.take 5 }

/-- Rank-movement alerts of `_process_ranking_change` (lines 171-204):
`position_change = snapshot.position - previous_position`; a RANK_DROP when it
is `>= rank_drop` (severity "warning" below 5, else "critical"), elif a
RANK_GAIN when it is `<= -rank_drop` (severity "info"). -/
def rankingAlerts (th : Thresholds) (prev : HistoryEntry) (snap : RankingSnapshot) :
    List Alert :=
  if th.rank_drop ≤ snap.position - prev.position then
    [{ type := AlertType.RANK_DROP
       severity := if snap.position - prev.position < 5 then "warning" else "critical"
       keyword := snap.keyword
       message := "Ranking dropped from #" ++ toString prev.position ++ " to #"
         ++ toString snap.position
       data := AlertData.rank prev.position snap.position (snap.position - prev.position)
       timestamp := snap.timestamp }]
  else if snap.position - prev.position ≤ -th.rank_drop then
    [{ type := AlertType.RANK_GAIN
       severity := "info"
       keyword := snap.keyword
       message := "Ranking improved from #" ++ toString prev.position ++ " to #"
         ++ toString snap.position
       data := AlertData.rank prev.position snap.position (snap.position - prev.position)
       timestamp := snap.timestamp }]
  else []

/-- New-competitor alert (lines 206-219): set difference of competitor
domains; one "info" alert when it is nonempty.  The message's joined domain
list uses Python set iteration order, which is unspecified; the payload keeps
the set itself. -/
def competitorAlerts (prev : HistoryEntry) (snap : RankingSnapshot) : List Alert :=
  let previous_competitors := (prev.competitors.map Competitor.domain).toFinset
  let current_competitors := (snap.competitors.map Competitor.domain).toFinset
  let new_competitors := current_competitors \ previous_competitors
  if new_competitors = ∅ then []
  else
    [{ type := AlertType.NEW_COMPETITOR
       severity := "info"
       keyword := snap.keyword
       message := "New competitors detected"
       data := AlertData.newCompetitors new_competitors
       timestamp := snap.timestamp }]

/-- SERP-feature alerts (lines 221-245): a critical LOST_SNIPPET when
"featured_snippet" is among the lost features, elif an info GAINED_SNIPPET
when it is among the gained ones. -/
def featureAlerts (prev : HistoryEntry) (snap : RankingSnapshot) : List Alert :=
  let previous_features := prev.serp_features.toFinset
  let current_features := snap.serp_features.toFinset
  let lost_features := previous_features \ current_features
  let gained_features := current_features \ previous_features
  if "featured_snippet" ∈ lost_features then
    [{ type := AlertType.LOST_SNIPPET
       severity := "critical"
       keyword := snap.keyword
       message := "Lost featured snippet"
       data := AlertData.lostFeatures lost_features
       timestamp := snap.timestamp }]
  else if "featured_snippet" ∈ gained_features then
    [{ type := AlertType.GAINED_SNIPPET
       severity := "info"
       keyword := snap.keyword
       message := "Gained featured snippet!"
       data := AlertData.gainedFeatures gained_features
       timestamp := snap.timestamp }]
  else []

/-- The full alert list built by `_process_ranking_change` (lines 166-245):
empty when there is no previous history entry (the whole block sits under
`if previous_data:`), otherwise the rank, competitor and feature alerts in
source order. -/
def generateAlerts (th : Thresholds) (previous : Option HistoryEntry)
    (snap : RankingSnapshot) : List Alert :=
  match previous with
  | none => []
  | some prev =>
      rankingAlerts th prev snap ++ competitorAlerts prev snap ++ featureAlerts prev snap

/-- The Redis sorted set under `volatility:{project}:{keyword}`: a list of
(member, score) pairs with pairwise-distinct members.  `_update_volatility_metrics`
uses `str(snapshot.position)` as the member and the observation timestamp as
the score, so the member is modelled by the integer position itself. -/
abbrev Zset := List (Int × Int)

/-- Redis ZADD (line 272-275): a new member is inserted; an existing member
only has its score updated. -/
def zadd (z : Zset) (member score : Int) : Zset :=
  if z.any (fun p => p.1 == member) then
    z.map (fun p => if p.1 == member then (member, score) else p)
  else
    z ++ [(member, score)]

/-- Redis ZREMRANGEBYSCORE (line 279): drop every member whose score lies in
the inclusive range [mn, mx]. -/
def zremrangebyscore (z : Zset) (mn mx : Int) : Zset :=
  z.filter (fun p => !(decide (mn ≤ p.2) && decide (p.2 ≤ mx)))

/-- Insertion into a score-ascending list (ties keep insertion order; no
property below depends on tie order). -/
def insertByScore (p : Int × Int) : Zset → Zset
  | [] => [p]
  | q :: rest => if p.2 ≤ q.2 then p :: q :: rest else q :: insertByScore p rest

/-- Score-ascending sort, the order Redis ZRANGE returns members in. -/
def sortByScore : Zset → Zset
  | [] => []
  | p :: rest => insertByScore p (sortByScore rest)

/-- Redis ZRANGE key 0 -1 (line 282): all members, ordered by score. -/
def zrangeAll (z : Zset) : List Int :=
  (sortByScore z).map Prod.fst

/-- The comparison `np.std(vals) / np.mean(vals) > thr` of line 287, carried
out in exact integer arithmetic.  With `n = len(vals)`, `S = sum(vals)` and
`Q = sum(v * v)`: `mean = S / n` and the population variance is
`std ^ 2 = (n * Q - S ^ 2) / n ^ 2`.  For a positive mean and a nonnegative
threshold `thr = num / den`, `std / mean > thr` iff `std ^ 2 > thr ^ 2 * mean ^ 2`
iff `(n * Q - S ^ 2) * den ^ 2 > num ^ 2 * S ^ 2` (multiplying through by
`n ^ 2 * den ^ 2 > 0`).  Stored positions are nonnegative, so `mean > 0` iff
`S > 0`; when every stored position is 0 NumPy yields `nan`, which compares
false — matching the `0 < S` conjunct. -/
def volatilityExceeds (vals : List Int) (thr : ℚ) : Bool :=
  let n : Int := vals.length
  let s : Int := vals.sum
  let q : Int := (vals.map (fun v => v * v)).sum
  decide (0 < s) &&
    decide (thr.num * thr.num * (s * s) < (n * q - s * s) * ((thr.den : Int) * (thr.den : Int)))

/-- The trimmed window `_update_volatility_metrics` computes over: ZADD of the
current observation, then ZREMRANGEBYSCORE 0 (now - 24h). -/
def volWindow (z : Zset) (snap : RankingSnapshot) (now : Int) : Zset :=
  zremrangebyscore (zadd z snap.position snap.timestamp) 0 (now - 86400)

/-- `_update_volatility_metrics` (lines 267-298): returns the updated sorted
set and the volatility alert, if one fired.  The alert needs strictly more
than 10 members in the window (`len(positions) > 10`, line 283) and the
volatility comparison to hold; its payload keeps `position_values[-10:]`. -/
def updateVolatilityMetrics (th : Thresholds) (z : Zset) (snap : RankingSnapshot)
    (now : Int) : Zset × Option Alert :=
  let z2 := volWindow z snap now
  let positions := zrangeAll z2
  if 10 < positions.length then
    if volatilityExceeds positions th.volatility_threshold then
      (z2, some { type := AlertType.SERP_VOLATILITY
                  severity := "warning"
                  keyword := snap.keyword
                  message := "High SERP volatility detected"
                  data := AlertData.volatilitySamples
                    (positions.drop (positions.length - 10))
                  timestamp := snap.timestamp })
    else (z2, none)
  else (z2, none)

/-- A `ranking_history` value together with its Redis expiry time: the SET at
lines 252-262 passes `expire=86400 * 30`, so the key vanishes 30 days after
the write. -/
structure StoredHistory where
  entry : HistoryEntry
  expires_at : Int
deriving DecidableEq

/-- Redis SET with `expire=86400 * 30`.  The new binding shadows any previous
one; reads take the first matching binding, so this is observably the Redis
overwrite. -/
def historySet (h : List (String × StoredHistory)) (k : String) (e : HistoryEntry)
    (now : Int) : List (String × StoredHistory) :=
  (k, { entry := e, expires_at := now + 86400 * 30 }) :: h

/-- Redis GET of a key written with an expiry: `none` once `now` has reached
the expiry time (or if the key was never written). -/
def historyGet (h : List (String × StoredHistory)) (k : String) (now : Int) :
    Option HistoryEntry :=
  match h.find? (fun p => p.1 == k) with
  | some p => if now < p.2.expires_at then some p.2.entry else none
  | none => none

/-- The persistence step of `_send_alert` (lines 302-315): LPUSH prepends the
serialized alert, LTRIM 0 999 keeps the first 1000 entries.  The WebSocket
fan-out the function also performs is modelled separately (`pyBroadcast`,
`wsBroadcast`). -/
def sendAlert (alerts : List Alert) (a : Alert) : List Alert :=
  (a :: alerts).take 1000

/-- Keyed zset lookup for `volatility:{project}:{keyword}` keys. -/
def lookupZset (v : List (String × Zset)) (k : String) : Zset :=
  ((v.find? (fun p => p.1 == k)).map Prod.snd).getD []

/-- Keyed zset store (shadowing update, read through `lookupZset`). -/
def setZset (v : List (String × Zset)) (k : String) (z : Zset) :
    List (String × Zset) :=
  (k, z) :: v

/-- The monitoring engine's per-project Redis state: ranking history entries,
volatility sorted sets (both keyed by keyword) and the `alerts:{project}`
list (newest first). -/
structure MonitorState where
  history : List (String × StoredHistory)
  volatility : List (String × Zset)
  alerts : List Alert
deriving DecidableEq

/-- The history entry `_process_ranking_change` stores for the current
snapshot (lines 252-262). -/
def snapshotEntry (snap : RankingSnapshot) : HistoryEntry :=
  { position := snap.position
    url := snap.url
    timestamp := snap.timestamp
    serp_features := snap.serp_features
    competitors := snap.competitors }

/-- `_process_ranking_change` (lines 159-265): read the previous history
entry, generate and send the change alerts, store the current snapshot as the
new history entry, then update the volatility metrics (which may send one
more alert). -/
def processRankingChange (th : Thresholds) (st : MonitorState)
    (snap : RankingSnapshot) (now : Int) : MonitorState :=
  let previous := historyGet st.history snap.keyword now
  let alerts := generateAlerts th previous snap
  let stored1 := alerts.foldl sendAlert st.alerts
  let history1 := historySet st.history snap.keyword (snapshotEntry snap) now
  let volResult := updateVolatilityMetrics th (lookupZset st.volatility snap.keyword) snap now
  let stored2 :=
    match volResult.2 with
    | some a => sendAlert stored1 a
    | none => stored1
  { history := history1
    volatility := setZset st.volatility snap.keyword volResult.1
    alerts := stored2 }

/-- Iterate `_update_volatility_metrics` over a sequence of observations of
one keyword (one call per monitoring cycle, `now` taken at the observation
time), collecting every volatility alert that fires. -/
def volatilitySeq (th : Thresholds) : Zset → List RankingSnapshot → Zset × List Alert
  | z, [] => (z, [])
  | z, s :: rest =>
      let step := updateVolatilityMetrics th z s s.timestamp
      let tail := volatilitySeq th step.1 rest
      (tail.1, step.2.toList ++ tail.2)

/-- The supervisor state of `RealtimeMonitoringService`: the Redis sets
`monitoring:{project}` and the `monitoring_tasks` dict (keys paired with an
opaque task identifier, so that replacing or duplicating a task is visible). -/
structure ServiceState where
  monitored : List (String × Finset String)
  monitoring_tasks : List (String × Nat)
deriving DecidableEq

/-- The tracked keyword set of a project (SMEMBERS of `monitoring:{project}`). -/
def lookupKeywords (m : List (String × Finset String)) (pid : String) : Finset String :=
  ((m.find? (fun p => p.1 == pid)).map Prod.snd).getD ∅

/-- Redis SADD (line 72): the supplied keywords are added to the existing
set.  Shadowing update, read through `lookupKeywords`. -/
def saddKeywords (m : List (String × Finset String)) (pid : String)
    (kws : List String) : List (String × Finset String) :=
  (pid, lookupKeywords m pid ∪ kws.toFinset) :: m

/-- `start_monitoring` (lines 67-77): SADD the keywords, then create a task
only when the project has none.  `newTask` stands for the freshly created
`asyncio.Task` object. -/
def startMonitoring (st : ServiceState) (project_id : String)
    (keywords : List String) (newTask : Nat) : ServiceState :=
  { monitored := saddKeywords st.monitored project_id keywords
    monitoring_tasks :=
      if st.monitoring_tasks.any (fun p => p.1 == project_id) then st.monitoring_tasks
      else (project_id, newTask) :: st.monitoring_tasks }

/-- `ConnectionManager.broadcast` of `api/monitoring.py` (lines 149-155),
modelled with CPython `for` semantics: the loop iterator walks the live list
by index, and `list.remove` (here `List.erase`: drop the first occurrence)
shifts later elements left, so the element after a removed one is skipped.
Returns (connections the message was delivered to, final list).  The fuel is
the initial length: the index grows by one per step and the list never grows,
so `l.length` steps always suffice. -/
def pyBroadcastGo {α : Type} [DecidableEq α] :
    Nat → List α → (α → Bool) → Nat → List α → List α × List α
  | 0, l, _, _, delivered => (delivered, l)
  | fuel + 1, l, fails, i, delivered =>
      if h : i < l.length then
        let c := l.get ⟨i, h⟩
        if fails c then
          pyBroadcastGo fuel (l.erase c) fails (i + 1) delivered
        else
          pyBroadcastGo fuel l fails (i + 1) (delivered ++ [c])
      else (delivered, l)

/-- `ConnectionManager.broadcast`: send to every connection in
`active_connections`, removing (in place, mid-iteration) each one whose send
raises. -/
def pyBroadcast {α : Type} [DecidableEq α] (l : List α) (fails : α → Bool) :
    List α × List α :=
  pyBroadcastGo l.length l fails 0 []

/-- The send loop of `_broadcast_to_websockets` (lines 337-343): iterate over
the full connection set, collecting the connections whose send raised.
Returns (delivered, disconnected). -/
def wsSendLoop {α : Type} (conns : List α) (fails : α → Bool) : List α × List α :=
  match conns with
  | [] => ([], [])
  | c :: rest =>
      let r := wsSendLoop rest fails
      if fails c then (r.1, c :: r.2) else (c :: r.1, r.2)

/-- `_broadcast_to_websockets` (lines 322-346): after the send loop the
disconnected set is subtracted from the registry.  Returns (delivered
connections, remaining registry). -/
def wsBroadcast {α : Type} [DecidableEq α] (conns : List α) (fails : α → Bool) :
    List α × List α :=
  let r := wsSendLoop conns fails
  (r.1, conns.filter (fun c => decide (c ∉ r.2)))

/-- Severity order used by the threshold table: info < warning < critical. -/
def sevRank (s : String) : Nat :=
  if s = "critical" then 2 else if s = "warning" then 1 else 0

/-- Follows the spec's words (§4.4, §8): volatility is `stddev/mean` over all
present positions in the window — every observation counted — and an alert is
possible exactly when at least the minimum sample count (10) is available and
the value exceeds the threshold.  Stated with the same squared comparison as
`volatilityExceeds`. -/
def specVolatilityFires (positions : List Int) (thr : ℚ) : Bool :=
  decide (10 ≤ positions.length) && volatilityExceeds positions thr

section Lemmas

lemma mem_competitorAlerts_type {prev : HistoryEntry} {snap : RankingSnapshot}
    {a : Alert} (ha : a ∈ competitorAlerts prev snap) :
    a.type = AlertType.NEW_COMPETITOR := by
  simp only [competitorAlerts] at ha
  split at ha
  · simp at ha
  · simp only [List.mem_singleton] at ha
    subst ha
    rfl

lemma mem_featureAlerts_type {prev : HistoryEntry} {snap : RankingSnapshot}
    {a : Alert} (ha : a ∈ featureAlerts prev snap) :
    a.type = AlertType.LOST_SNIPPET ∨ a.type = AlertType.GAINED_SNIPPET := by
  simp only [featureAlerts] at ha
  split at ha
  · simp only [List.mem_singleton] at ha
    subst ha
    exact Or.inl rfl
  · split at ha
    · simp only [List.mem_singleton] at ha
      subst ha
      exact Or.inr rfl
    · simp at ha

lemma rankingAlerts_data {th : Thresholds} {prev : HistoryEntry}
    {snap : RankingSnapshot} {a : Alert} (ha : a ∈ rankingAlerts th prev snap) :
    a.data = AlertData.rank prev.position snap.position (snap.position - prev.position) := by
  simp only [rankingAlerts] at ha
  split at ha
  · simp only [List.mem_singleton] at ha
    subst ha
    rfl
  · split at ha
    · simp only [List.mem_singleton] at ha
      subst ha
      rfl
    · simp at ha

lemma rankingAlerts_drop {th : Thresholds} {prev : HistoryEntry}
    {snap : RankingSnapshot} {a : Alert} (ha : a ∈ rankingAlerts th prev snap)
    (ht : a.type = AlertType.RANK_DROP) :
    th.rank_drop ≤ snap.position - prev.position ∧
      a.severity = if snap.position - prev.position < 5 then "warning" else "critical" := by
  simp only [rankingAlerts] at ha
  split at ha
  next h =>
    simp only [List.mem_singleton] at ha
    subst ha
    exact ⟨h, rfl⟩
  next h =>
    split at ha
    · simp only [List.mem_singleton] at ha
      subst ha
      simp at ht
    · simp at ha

lemma rankingAlerts_gain {th : Thresholds} {prev : HistoryEntry}
    {snap : RankingSnapshot} {a : Alert} (ha : a ∈ rankingAlerts th prev snap)
    (ht : a.type = AlertType.RANK_GAIN) :
    ¬ th.rank_drop ≤ snap.position - prev.position ∧
      snap.position - prev.position ≤ -th.rank_drop ∧ a.severity = "info" := by
  simp only [rankingAlerts] at ha
  split at ha
  next h =>
    simp only [List.mem_singleton] at ha
    subst ha
    simp at ht
  next h =>
    split at ha
    next h2 =>
      simp only [List.mem_singleton] at ha
      subst ha
      exact ⟨h, h2, rfl⟩
    · simp at ha

lemma mem_generateAlerts_rank {th : Thresholds} {prev : HistoryEntry}
    {snap : RankingSnapshot} {a : Alert}
    (ha : a ∈ generateAlerts th (some prev) snap)
    (ht : a.type = AlertType.RANK_DROP ∨ a.type = AlertType.RANK_GAIN) :
    a ∈ rankingAlerts th prev snap := by
  simp only [generateAlerts, List.mem_append] at ha
  rcases ha with (ha | ha) | ha
  · exact ha
  · have hc := mem_competitorAlerts_type ha
    rcases ht with ht | ht <;> rw [hc] at ht <;> simp at ht
  · have hc := mem_featureAlerts_type ha
    rcases hc with hc | hc <;> rcases ht with ht | ht <;> rw [hc] at ht <;> simp at ht

end Lemmas

/-- Previous observation of "seo tools" at position 15 (Scenario A). -/
def prevA : HistoryEntry :=
  { position := 15, url := "", timestamp := 0, serp_features := [], competitors := [] }

/-- Next observation of "seo tools" at position 12 (Scenario A). -/
def snapA : RankingSnapshot :=
  { keyword := "seo tools", position := 12, url := "", timestamp := 60,
    serp_features := [], competitors := [] }

/-- The alert the code raises in Scenario A. -/
def gainA : Alert :=
  { type := AlertType.RANK_GAIN, severity := "info", keyword := "seo tools",
    message := "Ranking improved from #15 to #12",
    data := AlertData.rank 15 12 (-3), timestamp := 60 }

/-- C1 counterexample: for the 15 → 12 transition the single raised alert
carries `data.change = -3`, while the claim's delta `previous - current`
equals 3; the claim's asserted `data.change = 3` is false. -/
theorem C1_position_delta_counterexample :
    (generateAlerts defaultThresholds (some prevA) snapA).map (fun a => a.data.change)
        = [some (-3)]
      ∧ prevA.position - snapA.position = 3
      ∧ some ((-3 : Int)) ≠ some ((3 : Int)) := by
  decide

/-- C1 (amended): the change detector's delta is
`current.position - previous.position` (a move toward rank 1 yields a
NEGATIVE delta): every rank alert carries that value in `data.change`, and
for a keyword at position 15 whose next observation is position 12, with the
default threshold 3, exactly one RankGain alert of severity info is raised,
whose `data.change` equals -3. -/
theorem C1_position_delta :
    (∀ (th : Thresholds) (prev : HistoryEntry) (snap : RankingSnapshot) (a : Alert),
        a ∈ generateAlerts th (some prev) snap →
        a.type = AlertType.RANK_DROP ∨ a.type = AlertType.RANK_GAIN →
        a.data.change = some (snap.position - prev.position))
      ∧ (generateAlerts defaultThresholds (some prevA) snapA).map
            (fun a => (a.type, a.severity, a.data.change))
          = [(AlertType.RANK_GAIN, "info", some (-3))] := by
  constructor
  · intro th prev snap a ha ht
    have hr := mem_generateAlerts_rank ha ht
    rw [rankingAlerts_data hr]
    rfl
  · decide

/-- Witness for C1: the amended statement applied to Scenario A. -/
theorem C1_position_delta_witness :
    gainA.data.change = some (snapA.position - prevA.position) :=
  C1_position_delta.1 defaultThresholds prevA snapA gainA (by decide) (Or.inr (by decide))

/-- Previous observation at position 5, for the not-found transition. -/
def prevB : HistoryEntry :=
  { position := 5, url := "", timestamp := 0, serp_features := [], competitors := [] }

/-- C2 counterexample: when the keyword is not found in the observed depth
(`position = None` from the fetch), `_check_keyword_ranking` stores position
0, and the transition from position 5 to not-found produces a numeric delta
-5 and raises a RankGain alert carrying it — there is no entered/exited
ranked-set signal. -/
theorem C2_not_found_counterexample :
    (mkSnapshot ("k") none none 60 [] []).position = 0
      ∧ (generateAlerts defaultThresholds (some prevB)
            (mkSnapshot ("k") none none 60 [] [])).map (fun a => (a.type, a.data.change))
          = [(AlertType.RANK_GAIN, some (-5))] := by
  decide

/-- C2 (amended): a keyword not found in the observed depth is recorded with
position 0 (the `None` position is coerced by `position or 0`); deltas are
computed numerically treating 0 as the position, so whenever the previous
position is at least the drop threshold, the transition to not-found raises a
RankGain alert with numeric `data.change = 0 - previous.position` — no
distinct entered/exited ranked-set signal exists. -/
theorem C2_not_found :
    (∀ (kw : String) (url : Option String) (now : Int) (fs : List String)
        (cs : List Competitor), (mkSnapshot kw url none now fs cs).position = 0)
      ∧ (∀ (th : Thresholds) (prev : HistoryEntry) (kw : String) (url : Option String)
            (now : Int) (fs : List String) (cs : List Competitor),
          0 < th.rank_drop → th.rank_drop ≤ prev.position →
          ∃ a ∈ generateAlerts th (some prev) (mkSnapshot kw url none now fs cs),
            a.type = AlertType.RANK_GAIN ∧ a.data.change = some (0 - prev.position)) := by
  constructor
  · intro kw url now fs cs
    rfl
  · intro th prev kw url now fs cs h0 hth
    have hpos : (mkSnapshot kw url none now fs cs).position = 0 := rfl
    have hc1 : ¬ th.rank_drop ≤ (mkSnapshot kw url none now fs cs).position - prev.position := by
      rw [hpos]
      omega
    have hc2 : (mkSnapshot kw url none now fs cs).position - prev.position ≤ -th.rank_drop := by
      rw [hpos]
      omega
    have hsingle : rankingAlerts th prev (mkSnapshot kw url none now fs cs) =
        [{ type := AlertType.RANK_GAIN
           severity := "info"
           keyword := (mkSnapshot kw url none now fs cs).keyword
           message := "Ranking improved from #" ++ toString prev.position ++ " to #"
             ++ toString (mkSnapshot kw url none now fs cs).position
           data := AlertData.rank prev.position (mkSnapshot kw url none now fs cs).position
             ((mkSnapshot kw url none now fs cs).position - prev.position)
           timestamp := (mkSnapshot kw url none now fs cs).timestamp }] := by
      unfold rankingAlerts
      rw [if_neg hc1, if_pos hc2]
    refine ⟨{ type := AlertType.RANK_GAIN
              severity := "info"
              keyword := (mkSnapshot kw url none now fs cs).keyword
              message := "Ranking improved from #" ++ toString prev.position ++ " to #"
                ++ toString (mkSnapshot kw url none now fs cs).position
              data := AlertData.rank prev.position (mkSnapshot kw url none now fs cs).position
                ((mkSnapshot kw url none now fs cs).position - prev.position)
              timestamp := (mkSnapshot kw url none now fs cs).timestamp }, ?_, rfl, rfl⟩
    simp only [generateAlerts, List.mem_append]
    refine Or.inl (Or.inl ?_)
    rw [hsingle]
    exact List.mem_singleton_self _

/-- Witness for C2: the amended statement at threshold 3, previous position 5. -/
theorem C2_not_found_witness :
    ∃ a ∈ generateAlerts defaultThresholds (some prevB)
        (mkSnapshot ("k") none none 60 [] []),
      a.type = AlertType.RANK_GAIN ∧ a.data.change = some (0 - prevB.position) :=
  C2_not_found.2 defaultThresholds prevB ("k") none 60 [] [] (by decide) (by decide)

/-- Previous observation at position 12, for a 3-position drop. -/
def prevD : HistoryEntry :=
  { position := 12, url := "", timestamp := 0, serp_features := [], competitors := [] }

/-- Current observation at position 15: a drop of magnitude 3. -/
def snapD : RankingSnapshot :=
  { keyword := "k", position := 15, url := "", timestamp := 60,
    serp_features := [], competitors := [] }

/-- The RankDrop alert the code raises for the 12 → 15 transition. -/
def dropD : Alert :=
  { type := AlertType.RANK_DROP, severity := "warning", keyword := "k",
    message := "Ranking dropped from #12 to #15",
    data := AlertData.rank 12 15 3, timestamp := 60 }

/-- C7 counterexample: a drop of magnitude 3 gets severity "warning", not the
"info" the claim's threshold table (info for 1-4) prescribes. -/
theorem C7_severity_counterexample :
    (generateAlerts defaultThresholds (some prevD) snapD).map
        (fun a => (a.type, a.severity)) = [(AlertType.RANK_DROP, "warning")]
      ∧ (snapD.position - prevD.position).natAbs = 3
      ∧ ("warning" : String) ≠ "info" := by
  decide

/-- C7 (amended): RankDrop and RankGain remain mutually exclusive for the same
transition, and with the default thresholds RankDrop severity is monotonically
non-decreasing in `abs(position_delta)` — but the table is: no rank alert
below magnitude 3, "warning" for magnitude 3-4, "critical" for magnitude 5 or
more (there is no info tier and no warning band at 5-9). -/
theorem C7_rank_alert_severity :
    (∀ (th : Thresholds) (prev : HistoryEntry) (snap : RankingSnapshot),
        ¬ ((∃ a ∈ generateAlerts th (some prev) snap, a.type = AlertType.RANK_DROP)
          ∧ (∃ b ∈ generateAlerts th (some prev) snap, b.type = AlertType.RANK_GAIN)))
      ∧ (∀ (prev : HistoryEntry) (snap : RankingSnapshot) (a : Alert),
          a ∈ generateAlerts defaultThresholds (some prev) snap →
          a.type = AlertType.RANK_DROP →
          3 ≤ snap.position - prev.position ∧
            a.severity = if snap.position - prev.position < 5 then "warning" else "critical")
      ∧ (∀ (p1 : HistoryEntry) (s1 : RankingSnapshot) (p2 : HistoryEntry)
            (s2 : RankingSnapshot) (a1 a2 : Alert),
          a1 ∈ generateAlerts defaultThresholds (some p1) s1 →
          a1.type = AlertType.RANK_DROP →
          a2 ∈ generateAlerts defaultThresholds (some p2) s2 →
          a2.type = AlertType.RANK_DROP →
          (s1.position - p1.position).natAbs ≤ (s2.position - p2.position).natAbs →
          sevRank a1.severity ≤ sevRank a2.severity) := by
  refine ⟨?_, ?_, ?_⟩
  · rintro th prev snap ⟨⟨a, ha, hta⟩, ⟨b, hb, htb⟩⟩
    have da := rankingAlerts_drop (mem_generateAlerts_rank ha (Or.inl hta)) hta
    have gb := rankingAlerts_gain (mem_generateAlerts_rank hb (Or.inr htb)) htb
    exact gb.1 da.1
  · intro prev snap a ha hta
    have d := rankingAlerts_drop (mem_generateAlerts_rank ha (Or.inl hta)) hta
    exact ⟨d.1, d.2⟩
  · intro p1 s1 p2 s2 a1 a2 h1 t1 h2 t2 hle
    have d1 := rankingAlerts_drop (mem_generateAlerts_rank h1 (Or.inl t1)) t1
    have d2 := rankingAlerts_drop (mem_generateAlerts_rank h2 (Or.inl t2)) t2
    have g1 : (3 : Int) ≤ s1.position - p1.position := d1.1
    have g2 : (3 : Int) ≤ s2.position - p2.position := d2.1
    have hle2 : s1.position - p1.position ≤ s2.position - p2.position := by omega
    rw [d1.2, d2.2]
    by_cases h5 : s1.position - p1.position < 5
    · rw [if_pos h5]
      by_cases h6 : s2.position - p2.position < 5
      · rw [if_pos h6]
      · rw [if_neg h6]
        decide
    · rw [if_neg h5]
      have h6 : ¬ s2.position - p2.position < 5 := by omega
      rw [if_neg h6]

/-- Witness for C7: the amended severity statement at the 12 → 15 drop. -/
theorem C7_rank_alert_severity_witness :
    3 ≤ snapD.position - prevD.position ∧
      dropD.severity = if snapD.position - prevD.position < 5 then "warning" else "critical" :=
  C7_rank_alert_severity.2.1 prevD snapD dropD (by decide) (by decide)

/-- A magnitude-10 RankDrop alert raised at time 0. -/
def dropT0 : Alert :=
  { type := AlertType.RANK_DROP, severity := "critical", keyword := "k",
    message := "Ranking dropped from #5 to #15",
    data := AlertData.rank 5 15 10, timestamp := 0 }

/-- The same-magnitude RankDrop alert for the same keyword, ten minutes later. -/
def dropT1 : Alert :=
  { type := AlertType.RANK_DROP, severity := "critical", keyword := "k",
    message := "Ranking dropped from #5 to #15",
    data := AlertData.rank 5 15 10, timestamp := 600 }

/-- C3 counterexample: two alerts of the same (keyword, type) and the same
magnitude, raised ten minutes apart — well inside the 1-hour cooldown window
and with zero escalation — are BOTH persisted by `_send_alert`; the stored
list has two entries, not one. -/
theorem C3_cooldown_counterexample :
    sendAlert (sendAlert [] dropT0) dropT1 = [dropT1, dropT0]
      ∧ dropT1.type = dropT0.type
      ∧ dropT1.keyword = dropT0.keyword
      ∧ dropT1.timestamp - dropT0.timestamp < 3600
      ∧ dropT1.data.change = dropT0.data.change
      ∧ (sendAlert (sendAlert [] dropT0) dropT1).length ≠ 1 := by
  decide

/-- C3 (amended): `_send_alert` applies no cooldown suppression at all: every
raised alert is persisted unconditionally — the new alert becomes the head of
the stored list and the length grows by one up to the 1000 cap — regardless
of any earlier alert of the same (project, keyword, type) or its magnitude. -/
theorem C3_no_cooldown : ∀ (stored : List Alert) (a : Alert),
    (sendAlert stored a).head? = some a ∧
      (sendAlert stored a).length = min (stored.length + 1) 1000 := by
  intro stored a
  constructor
  · rfl
  · simp only [sendAlert, List.length_take, List.length_cons]
    exact Nat.min_comm _ _

lemma take_append_take {α : Type} (x y : List α) (n : Nat) :
    (x ++ y.take n).take n = (x ++ y).take n := by
  rw [List.take_append_eq_append_take, List.take_append_eq_append_take, List.take_take,
    Nat.min_eq_left (Nat.sub_le n x.length)]

lemma foldl_sendAlert (raises : List Alert) :
    ∀ (s : List Alert), s.length ≤ 1000 →
      raises.foldl sendAlert s = (raises.reverse ++ s).take 1000 := by
  induction raises with
  | nil =>
      intro s hs
      simp [List.take_of_length_le hs]
  | cons a rest ih =>
      intro s hs
      have hlen : (sendAlert s a).length ≤ 1000 := by
        simp only [sendAlert, List.length_take]
        exact Nat.min_le_left _ _
      calc (a :: rest).foldl sendAlert s = rest.foldl sendAlert (sendAlert s a) := rfl
        _ = (rest.reverse ++ (a :: s).take 1000).take 1000 := ih _ hlen
        _ = (rest.reverse ++ (a :: s)).take 1000 := take_append_take _ _ _
        _ = ((a :: rest).reverse ++ s).take 1000 := by simp

/-- C10: every raised alert is prepended to the head of the stored list and
the list is trimmed, so after any sequence of raises the store holds exactly
the most recent at-most-1000 alerts, newest first. -/
theorem C10_alert_list_cap : ∀ (raises : List Alert),
    raises.foldl sendAlert [] = raises.reverse.take 1000 ∧
      (raises.foldl sendAlert []).length ≤ 1000 := by
  intro raises
  have h := foldl_sendAlert raises [] (by simp)
  rw [List.append_nil] at h
  refine ⟨h, ?_⟩
  rw [h, List.length_take]
  exact Nat.min_le_left _ _

lemma length_insertByScore (p : Int × Int) (z : Zset) :
    (insertByScore p z).length = z.length + 1 := by
  induction z with
  | nil => rfl
  | cons q rest ih =>
      unfold insertByScore
      split
      · simp
      · simp [ih]

lemma length_sortByScore (z : Zset) : (sortByScore z).length = z.length := by
  induction z with
  | nil => rfl
  | cons p rest ih => simp [sortByScore, length_insertByScore, ih]

lemma length_zrangeAll (z : Zset) : (zrangeAll z).length = z.length := by
  simp [zrangeAll, length_sortByScore]

lemma updateVolatilityMetrics_none_of_le {th : Thresholds} {z : Zset}
    {snap : RankingSnapshot} {now : Int}
    (h : (zrangeAll (volWindow z snap now)).length ≤ 10) :
    (updateVolatilityMetrics th z snap now).2 = none := by
  have h10 : ¬ 10 < (zrangeAll (volWindow z snap now)).length := by omega
  simp [updateVolatilityMetrics, h10]

/-- One observation of "seo tools" at a given position and time, as stored by
the monitoring cycle. -/
def volSnap (p t : Int) : RankingSnapshot :=
  { keyword := "seo tools", position := p, url := "", timestamp := t,
    serp_features := [], competitors := [] }

/-- Scenario C of the spec: 12 consecutive position readings over 24 hours. -/
def readingsC : List RankingSnapshot :=
  [volSnap 10 0, volSnap 12 100, volSnap 9 200, volSnap 30 300, volSnap 8 400,
   volSnap 11 500, volSnap 9 600, volSnap 40 700, volSnap 10 800, volSnap 9 900,
   volSnap 8 1000, volSnap 35 1100]

/-- The 12 position values of Scenario C. -/
def positionsC : List Int := [10, 12, 9, 30, 8, 11, 9, 40, 10, 9, 8, 35]

/-- C4 counterexample: feeding the 12 Scenario-C readings (all within the
24-hour window) through `_update_volatility_metrics` fires NO volatility
alert — the sorted set is keyed by the position value, so the 12 observations
collapse to 8 distinct members, below the `> 10` gate — although the claim's
computation (stddev/mean over all 12 observations, minimum sample count 10)
says an alert must fire. -/
theorem C4_volatility_counterexample :
    (volatilitySeq defaultThresholds [] readingsC).2 = []
      ∧ positionsC.length = 12
      ∧ specVolatilityFires positionsC defaultThresholds.volatility_threshold = true := by
  decide

/-- C4 (amended): the volatility value is computed over the DISTINCT position
values present in the 24-hour window — a repeated position value is counted
once, keeping only its latest timestamp — and no Volatility alert fires
unless strictly more than 10 such distinct values are present (at least 11). -/
theorem C4_volatility_window :
    (∀ (th : Thresholds) (z : Zset) (snap : RankingSnapshot) (now : Int),
        (zrangeAll (volWindow z snap now)).length ≤ 10 →
        (updateVolatilityMetrics th z snap now).2 = none)
      ∧ (∀ (z : Zset) (m s : Int), m ∈ z.map Prod.fst → (zadd z m s).length = z.length) := by
  constructor
  · intro th z snap now h
    exact updateVolatilityMetrics_none_of_le h
  · intro z m s hm
    have hany : z.any (fun p => p.1 == m) = true := by
      rw [List.any_eq_true]
      obtain ⟨p, hp, hpm⟩ := List.mem_map.mp hm
      exact ⟨p, hp, by simp [hpm]⟩
    simp [zadd, hany]

/-- Witness for C4: a fresh window stays silent, and re-adding an existing
position value does not grow the sample set. -/
theorem C4_volatility_window_witness :
    (updateVolatilityMetrics defaultThresholds [] (volSnap 5 0) 0).2 = none
      ∧ (zadd [((5 : Int), (0 : Int))] 5 9).length = 1 :=
  ⟨C4_volatility_window.1 defaultThresholds [] (volSnap 5 0) 0 (by decide),
   C4_volatility_window.2 [((5 : Int), (0 : Int))] 5 9 (by decide)⟩

/-- C5: the first-ever observation of a keyword (no history entry, no
volatility entries) raises no alert and leaves the persisted alert list
untouched. -/
theorem C5_cold_start :
    ∀ (th : Thresholds) (st : MonitorState) (snap : RankingSnapshot) (now : Int),
      historyGet st.history snap.keyword now = none →
      lookupZset st.volatility snap.keyword = [] →
      (processRankingChange th st snap now).alerts = st.alerts := by
  intro th st snap now hh hv
  have hvol : (updateVolatilityMetrics th (lookupZset st.volatility snap.keyword) snap now).2
      = none := by
    rw [hv]
    apply updateVolatilityMetrics_none_of_le
    rw [length_zrangeAll]
    have h1 : (volWindow [] snap now).length ≤ (zadd [] snap.position snap.timestamp).length := by
      unfold volWindow zremrangebyscore
      exact List.length_filter_le _ _
    have h2 : (zadd [] snap.position snap.timestamp).length = 1 := by
      simp [zadd]
    omega
  simp only [processRankingChange]
  rw [hh, hvol]
  simp [generateAlerts]

/-- Witness for C5: processing a snapshot against the empty engine state. -/
theorem C5_cold_start_witness :
    (processRankingChange defaultThresholds
        { history := [], volatility := [], alerts := [] } (volSnap 7 0) 0).alerts = [] :=
  C5_cold_start defaultThresholds { history := [], volatility := [], alerts := [] }
    (volSnap 7 0) 0 (by decide) (by decide)

lemma updateVolatilityMetrics_fst (th : Thresholds) (z : Zset)
    (snap : RankingSnapshot) (now : Int) :
    (updateVolatilityMetrics th z snap now).1 = volWindow z snap now := by
  simp only [updateVolatilityMetrics]
  split
  · split
    · rfl
    · rfl
  · rfl

/-- C9 counterexample: after a 25-hour gap, `_update_volatility_metrics`
evicts the single most recent prior snapshot (position 5 at time 0) — only
the just-appended observation survives; and the `ranking_history` entry
written at time 0 has expired by 30 days later, so the previous reference
point for diffing is gone. -/
theorem C9_eviction_counterexample :
    (updateVolatilityMetrics defaultThresholds [((5 : Int), (0 : Int))]
          (volSnap 7 90000) 90000).1 = [((7 : Int), (90000 : Int))]
      ∧ historyGet (historySet [] ("k") (snapshotEntry (volSnap 5 0)) 0) ("k") 2592001
          = none := by
  decide

/-- C9 (amended): eviction DOES remove the most recent snapshot once it is
older than the horizon: the volatility-window trim keeps no entry whose
timestamp lies in `[0, now - 24h]` (the just-appended observation is the only
guaranteed survivor), and a `ranking_history` entry is gone 30 days after its
write, so after a long enough gap no previous reference point remains and the
next observation is processed as a cold start. -/
theorem C9_eviction :
    (∀ (th : Thresholds) (z : Zset) (snap : RankingSnapshot) (now : Int) (p : Int × Int),
        p ∈ (updateVolatilityMetrics th z snap now).1 →
        ¬ (0 ≤ p.2 ∧ p.2 ≤ now - 86400))
      ∧ (∀ (h : List (String × StoredHistory)) (k : String) (e : HistoryEntry)
            (now t : Int), now + 86400 * 30 ≤ t →
          historyGet (historySet h k e now) k t = none) := by
  constructor
  · intro th z snap now p hp
    rw [updateVolatilityMetrics_fst] at hp
    unfold volWindow zremrangebyscore at hp
    have hpred := List.of_mem_filter hp
    intro hcon
    obtain ⟨h1, h2⟩ := hcon
    simp [h1, h2] at hpred
  · intro h k e now t ht
    unfold historyGet historySet
    rw [List.find?_cons_of_pos _ (by simp)]
    dsimp only
    rw [if_neg (by omega)]

/-- Witness for C9: the surviving entry of the 25-hour-gap window is recent,
and a history read 30 days after the write misses. -/
theorem C9_eviction_witness :
    ¬ ((0 : Int) ≤ ((7 : Int), (90000 : Int)).2
        ∧ ((7 : Int), (90000 : Int)).2 ≤ 90000 - 86400)
      ∧ historyGet (historySet [] ("k") (snapshotEntry (volSnap 5 0)) 0) ("k") 2600000
          = none :=
  ⟨C9_eviction.1 defaultThresholds [((5 : Int), (0 : Int))] (volSnap 7 90000) 90000
      ((7 : Int), (90000 : Int)) (by decide),
   C9_eviction.2 [] ("k") (snapshotEntry (volSnap 5 0)) 0 2600000 (by decide)⟩

/-- C6: `ConnectionManager.broadcast` removes a failing connection from the
list it is iterating over, so the connection AFTER the failing one is
skipped: with live connections [1, 2, 3] and connection 2 failing, only
connection 1 receives the message — connection 3 does not, although the
registry correctly drops to [1, 3] and no error escapes.  The service-level
`_broadcast_to_websockets` (which defers removal until after the loop) does
deliver to both survivors on the same input. -/
theorem C6_broadcast_skips_after_failure :
    pyBroadcast [1, 2, 3] (fun c => c == 2) = ([1], [1, 3])
      ∧ (3 : Nat) ∉ (pyBroadcast [1, 2, 3] (fun c => c == 2)).1
      ∧ (pyBroadcast [1, 2, 3] (fun c => c == 2)).2.length = 2
      ∧ wsBroadcast [1, 2, 3] (fun c => c == 2) = ([1, 3], [1, 3]) := by
  decide

/-- Empty supervisor state, then `start_monitoring("p", ["a"])`. -/
def st8a : ServiceState :=
  startMonitoring { monitored := [], monitoring_tasks := [] } ("p") [("a")] 1

/-- A second `start_monitoring("p", ["b"])` while "p" is already running. -/
def st8b : ServiceState := startMonitoring st8a ("p") [("b")] 2

/-- C8 counterexample: the second start call does NOT replace the tracked
keyword set — SADD unions, so "a" is still tracked and the set is not
`{"b"}` — while the monitoring task is indeed left untouched. -/
theorem C8_start_counterexample :
    lookupKeywords st8b.monitored ("p") ≠ {("b")}
      ∧ ("a" : String) ∈ lookupKeywords st8b.monitored ("p")
      ∧ st8b.monitoring_tasks = [(("p" : String), 1)] := by
  decide

/-- C8 (amended): a second `start_monitoring` call for a project that is
already running ADDS the supplied keywords to the tracked set (a union:
previously tracked keywords remain tracked) and does not restart or duplicate
the monitoring loop. -/
theorem C8_start_running :
    ∀ (st : ServiceState) (pid : String) (kws : List String) (newTask : Nat),
      st.monitoring_tasks.any (fun p => p.1 == pid) = true →
      (startMonitoring st pid kws newTask).monitoring_tasks = st.monitoring_tasks ∧
        lookupKeywords (startMonitoring st pid kws newTask).monitored pid =
          lookupKeywords st.monitored pid ∪ kws.toFinset := by
  intro st pid kws newTask hrun
  constructor
  · simp [startMonitoring, hrun]
  · show lookupKeywords ((pid, lookupKeywords st.monitored pid ∪ kws.toFinset)
        :: st.monitored) pid = _
    unfold lookupKeywords
    rw [List.find?_cons_of_pos _ (by simp)]
    rfl

/-- Witness for C8: the amended statement at the concrete double start. -/
theorem C8_start_running_witness :
    st8b.monitoring_tasks = st8a.monitoring_tasks ∧
      lookupKeywords st8b.monitored ("p") =
        lookupKeywords st8a.monitored ("p") ∪ ([("b")] : List String).toFinset :=
  C8_start_running st8a ("p") [("b")] 2 (by decide)

end SEOMonitor
